import Mathlib

/-!
# Student management backend: projection and validation layer

A shallow embedding of `src/server.js` together with the two schemas
`src/models/Student.js` and `src/models/Grade.js`.

* JavaScript values that the handlers touch are the type `JsVal`; the
  truthiness test behind `!x` and `x || y` and the loose test `x == null`
  are `JsVal.truthy` and `JsVal.isNullish`.
* The document store is the state `Db`: three collections in insertion
  order.  Every asynchronous store call of a handler goes through `await`
  (a read) or `awaitCreate` (a create, which validates the document before
  any store I/O); the I/O may reject with the message supplied by a `Faults`
  schedule.
* Each Express handler is a function from the request and the store to an
  `Outcome`: the response, the store afterwards, the store calls issued and
  the message handed to `console.error` when the `catch` clause ran.
-/

namespace StudentBackend

/-- Identifier of a stored document (`_id`). -/
abbrev ObjectId := Nat

/-- The JavaScript values occurring in request bodies, documents and views.
`undefined` is what destructuring yields for a key that the body lacks and
what a document getter yields for a path that was never set.  `num` carries
the numeric value; the handlers only ever test a number for being zero.
`composite` stands for an array or a plain object of the request body. -/
inductive JsVal where
  | undefined
  | null
  | bool (b : Bool)
  | num (n : Int)
  | str (s : String)
  | date (t : Nat)
  | oid (i : ObjectId)
  | composite
  deriving DecidableEq, Repr

namespace JsVal

/-- Truthiness, the test behind `!x` and `x || y`. -/
def truthy : JsVal → Bool
  | undefined => false
  | null => false
  | bool b => b
  | num n => n != 0
  | str s => s != ""
  | date _ => true
  | oid _ => true
  | composite => true

/-- The loose comparison `x == null`: true of `null` and `undefined` only. -/
def isNullish : JsVal → Bool
  | undefined => true
  | null => true
  | _ => false

/-- The expression `a || b`. -/
def or (a b : JsVal) : JsVal := if a.truthy then a else b

end JsVal

/-- A stored reference path of type `ObjectId` (`course_id`, `student_id`):
never set, set to `null`, or holding an id. -/
inductive Ref where
  | undefined
  | null
  | id (v : ObjectId)
  deriving DecidableEq, Repr

/-- A reference path after `.populate(path, 'name')`: untouched when it held
no id, the selected fields `_id` and `name` of the referenced document when
the id resolves, and `null` when no document has that id. -/
inductive Populated where
  | undefined
  | null
  | doc (_id : ObjectId) (name : String)
  deriving DecidableEq, Repr

namespace Populated

/-- The expression `p?._id`. -/
def optId : Populated → JsVal
  | undefined => .undefined
  | null => .undefined
  | doc i _ => .oid i

/-- The expression `p?.name`. -/
def optName : Populated → JsVal
  | undefined => .undefined
  | null => .undefined
  | doc _ n => .str n

end Populated

/-- Modelled from the spec: `models/Course.js` is imported by the server but
is not among the sources.  A Course is `{ id, name }` with `name` a required
string. -/
structure CourseDoc where
  _id : ObjectId
  name : String
  deriving DecidableEq, Repr

/-- A document of `studentSchema`: `name` is a required `String`, `email` an
optional `String` (kept as the value its getter returns), `course_id` an
optional reference to a Course, `created_at` a date. -/
structure StudentDoc where
  _id : ObjectId
  name : String
  email : JsVal
  course_id : Ref
  created_at : Nat
  deriving DecidableEq, Repr

/-- A document of `gradeSchema`. -/
structure GradeDoc where
  _id : ObjectId
  student_id : Ref
  course_id : Ref
  score : Int
  created_at : Nat
  deriving DecidableEq, Repr

/-- The document store: one list per collection, in insertion order. -/
structure Db where
  courses : List CourseDoc
  students : List StudentDoc
  grades : List GradeDoc
  deriving DecidableEq, Repr

/-- A Student read with `.populate('course_id', 'name')`. -/
structure PopulatedStudent where
  _id : ObjectId
  name : String
  email : JsVal
  course_id : Populated
  created_at : Nat
  deriving DecidableEq, Repr

/-- A Grade read with `.populate('student_id', 'name').populate('course_id', 'name')`. -/
structure PopulatedGrade where
  _id : ObjectId
  student_id : Populated
  course_id : Populated
  score : Int
  created_at : Nat
  deriving DecidableEq, Repr

/-- The object literal a student handler passes to `res.json`. -/
structure StudentView where
  id : JsVal
  name : JsVal
  email : JsVal
  course_id : JsVal
  course_name : JsVal
  created_at : JsVal
  deriving DecidableEq, Repr

/-- The object literal a grade handler passes to `res.json`. -/
structure GradeView where
  id : JsVal
  student_id : JsVal
  student_name : JsVal
  course_id : JsVal
  course_name : JsVal
  score : JsVal
  created_at : JsVal
  deriving DecidableEq, Repr

/-- A serialized response body: one object or an array of objects, each
object a list of key and value. -/
inductive Json where
  | object (fields : List (String × JsVal))
  | array (items : List (List (String × JsVal)))
  deriving DecidableEq, Repr

/-- Serialization of an object literal by `res.json`: a property whose value
is `undefined` is left out, every other property is written in order. -/
def serialize (props : List (String × JsVal)) : List (String × JsVal) :=
  props.filter (fun p => p.2 != JsVal.undefined)

/-- The properties of a student view literal, in source order. -/
def StudentView.props (v : StudentView) : List (String × JsVal) :=
  [("id", v.id), ("name", v.name), ("email", v.email), ("course_id", v.course_id),
   ("course_name", v.course_name), ("created_at", v.created_at)]

/-- The properties of a grade view literal, in source order. -/
def GradeView.props (v : GradeView) : List (String × JsVal) :=
  [("id", v.id), ("student_id", v.student_id), ("student_name", v.student_name),
   ("course_id", v.course_id), ("course_name", v.course_name), ("score", v.score),
   ("created_at", v.created_at)]

/-- An HTTP response: status code and serialized body. -/
structure Response where
  status : Nat
  body : Json
  deriving DecidableEq, Repr

/-- The body `{ error: msg }`. -/
def errorBody (msg : String) : Json := .object [("error", .str msg)]

/-- The fields the handlers destructure from `req.body`; a key the body
lacks is `undefined`. -/
structure Body where
  name : JsVal
  email : JsVal
  course_id : JsVal
  student_id : JsVal
  score : JsVal
  deriving DecidableEq, Repr

/-- The parts of the persistence library that lie outside the sources: the
conversion of a value that is not already of the schema type (`none` is a
cast error), and the clock behind the `Date.now` default. -/
structure Engine where
  castObjectId : JsVal → Option ObjectId
  castString : JsVal → Option String
  castNumber : JsVal → Option Int
  now : Nat

/-- A fault schedule: `f k = some msg` makes the `k`-th awaited store call
of a request reject with message `msg` (connection loss, timeout, ...). -/
abbrev Faults := Nat → Option String

/-- Awaiting the `k`-th store call of a request. -/
def await {α : Type} (f : Faults) (k : Nat) (op : Except String α) : Except String α :=
  match f k with
  | some msg => .error msg
  | none => op

/-- Awaiting the `k`-th store call of a request when that call is a create.
The document is cast and validated first, before any store I/O, so a
validation error is raised whatever the schedule holds; a valid document is
written unless the schedule rejects the write. -/
def awaitCreate {α : Type} (f : Faults) (k : Nat) (op : Except String α) : Except String α :=
  match op with
  | .error e => .error e
  | .ok r => await f k (.ok r)

/-- The store calls a handler can issue. -/
inductive StoreCall where
  | studentFind
  | studentCreate (name email course_id : JsVal)
  | studentFindById (id : ObjectId)
  | courseFind
  | courseCreate (name : JsVal)
  | gradeFind
  | gradeCreate (student_id course_id score : JsVal)
  | gradeFindById (id : ObjectId)
  deriving DecidableEq, Repr

/-- What a handler run leaves behind: the response sent, the store
afterwards, the store calls issued in order, and the `err.message` written
to `console.error` when the `catch` clause ran. -/
structure Outcome where
  response : Response
  db : Db
  calls : List StoreCall
  caught : Option String
  deriving DecidableEq, Repr

/-! ## The store -/

/-- A fresh identifier for a collection whose documents have ids `ids`. -/
def newId (ids : List ObjectId) : ObjectId := ids.foldr max 0 + 1

/-- Lookup of a Course by id. -/
def findCourse (db : Db) (v : ObjectId) : Option CourseDoc :=
  db.courses.find? (fun c => c._id == v)

/-- Lookup of a Student by id. -/
def findStudent (db : Db) (v : ObjectId) : Option StudentDoc :=
  db.students.find? (fun s => s._id == v)

/-- Lookup of a Grade by id. -/
def findGrade (db : Db) (v : ObjectId) : Option GradeDoc :=
  db.grades.find? (fun g => g._id == v)

/-- Population of a reference to a Course with the field `name`. -/
def populateCourse (db : Db) : Ref → Populated
  | .undefined => .undefined
  | .null => .null
  | .id v =>
    match findCourse db v with
    | some c => .doc c._id c.name
    | none => .null

/-- Population of a reference to a Student with the field `name`. -/
def populateStudentRef (db : Db) : Ref → Populated
  | .undefined => .undefined
  | .null => .null
  | .id v =>
    match findStudent db v with
    | some s => .doc s._id s.name
    | none => .null

/-- A student document after `.populate('course_id', 'name')`. -/
def populateStudent (db : Db) (s : StudentDoc) : PopulatedStudent :=
  { _id := s._id, name := s.name, email := s.email,
    course_id := populateCourse db s.course_id, created_at := s.created_at }

/-- A grade document after both `populate` calls. -/
def populateGrade (db : Db) (g : GradeDoc) : PopulatedGrade :=
  { _id := g._id, student_id := populateStudentRef db g.student_id,
    course_id := populateCourse db g.course_id, score := g.score,
    created_at := g.created_at }

/-- Cast of a value for a `String` path; `null` and `undefined` are kept. -/
def castStringPath (eng : Engine) : JsVal → Option JsVal
  | .undefined => some .undefined
  | .null => some .null
  | .str s => some (.str s)
  | v => (eng.castString v).map JsVal.str

/-- Cast of a value for an `ObjectId` path; `null` and `undefined` are kept. -/
def castRefPath (eng : Engine) : JsVal → Option Ref
  | .undefined => some .undefined
  | .null => some .null
  | .oid i => some (.id i)
  | v => (eng.castObjectId v).map Ref.id

/-- Cast of a value for a `Number` path followed by the `required` check:
`none` when the cast fails or leaves no number. -/
def castRequiredNumber (eng : Engine) : JsVal → Option Int
  | .undefined => none
  | .null => none
  | .num n => some n
  | v => eng.castNumber v

/-- Cast of a value for a `String` path followed by the `required` check,
which rejects `undefined`, `null` and the empty string. -/
def castRequiredString (eng : Engine) (v : JsVal) : Option String :=
  match castStringPath eng v with
  | some (.str s) => if s = "" then none else some s
  | _ => none

/-- Cast of a value for an `ObjectId` path followed by the `required` check. -/
def castRequiredRef (eng : Engine) (v : JsVal) : Option Ref :=
  match castRefPath eng v with
  | some (.id i) => some (.id i)
  | _ => none

/-- The call `Student.create({ name, email, course_id })`: the values are
cast and validated against `studentSchema`, the new document receives a
fresh `_id` and the `created_at` default and is appended to the collection. -/
def Student.create (eng : Engine) (db : Db) (name email course_id : JsVal) :
    Except String (StudentDoc × Db) :=
  match castRequiredString eng name, castStringPath eng email, castRefPath eng course_id with
  | some n, some e, some c =>
    let d : StudentDoc :=
      { _id := newId (db.students.map (fun s => s._id)), name := n, email := e,
        course_id := c, created_at := eng.now }
    .ok (d, { db with students := db.students ++ [d] })
  | _, _, _ => .error "Student validation failed"

/-- The call `Grade.create({ student_id, course_id, score })` against
`gradeSchema`, where all three paths are required. -/
def Grade.create (eng : Engine) (db : Db) (student_id course_id score : JsVal) :
    Except String (GradeDoc × Db) :=
  match castRequiredRef eng student_id, castRequiredRef eng course_id,
      castRequiredNumber eng score with
  | some s, some c, some n =>
    let d : GradeDoc :=
      { _id := newId (db.grades.map (fun g => g._id)), student_id := s, course_id := c,
        score := n, created_at := eng.now }
    .ok (d, { db with grades := db.grades ++ [d] })
  | _, _, _ => .error "Grade validation failed"

/-- Modelled from the spec: `models/Course.js` is not among the sources.
The call `Course.create({ name })` stores a Course whose `name` is a
required string under a fresh id. -/
def Course.create (eng : Engine) (db : Db) (name : JsVal) : Except String (CourseDoc × Db) :=
  match castRequiredString eng name with
  | some n =>
    let d : CourseDoc := { _id := newId (db.courses.map (fun c => c._id)), name := n }
    .ok (d, { db with courses := db.courses ++ [d] })
  | none => .error "Course validation failed"

/-- The query `Student.find().populate('course_id', 'name')`. -/
def Student.findPopulated (db : Db) : List PopulatedStudent :=
  db.students.map (populateStudent db)

/-- The query `Student.findById(id).populate('course_id', 'name')`. -/
def Student.findByIdPopulated (db : Db) (id : ObjectId) : Option PopulatedStudent :=
  (findStudent db id).map (populateStudent db)

/-- The query `Grade.find()` with both `populate` calls. -/
def Grade.findPopulated (db : Db) : List PopulatedGrade :=
  db.grades.map (populateGrade db)

/-- The query `Grade.findById(id)` with both `populate` calls. -/
def Grade.findByIdPopulated (db : Db) (id : ObjectId) : Option PopulatedGrade :=
  (findGrade db id).map (populateGrade db)

/-! ## The handlers of `server.js` -/

/-- The mapping function of `GET /students` (lines 49 to 56). -/
def getStudentsFormat (s : PopulatedStudent) : StudentView :=
  { id := .oid s._id
    name := .str s.name
    email := s.email
    course_id := (s.course_id.optId).or .null
    course_name := (s.course_id.optName).or .null
    created_at := .date s.created_at }

/-- The object literal of `POST /students` (lines 71 to 78). -/
def postStudentsFormat (populated : PopulatedStudent) : StudentView :=
  { id := .oid populated._id
    name := .str populated.name
    email := populated.email
    course_id := (populated.course_id.optId).or .null
    course_name := (populated.course_id.optName).or .null
    created_at := .date populated.created_at }

/-- The mapping function of `GET /grades` (lines 120 to 128). -/
def getGradesFormat (g : PopulatedGrade) : GradeView :=
  { id := .oid g._id
    student_id := (g.student_id.optId).or .null
    student_name := (g.student_id.optName).or .null
    course_id := (g.course_id.optId).or .null
    course_name := (g.course_id.optName).or .null
    score := .num g.score
    created_at := .date g.created_at }

/-- The object literal of `POST /grades` (lines 149 to 157). -/
def postGradesFormat (populated : PopulatedGrade) : GradeView :=
  { id := .oid populated._id
    student_id := (populated.student_id.optId).or .null
    student_name := (populated.student_id.optName).or .null
    course_id := (populated.course_id.optId).or .null
    course_name := (populated.course_id.optName).or .null
    score := .num populated.score
    created_at := .date populated.created_at }

/-- The mapping function of `GET /courses` (lines 89 to 92). -/
def getCoursesFormat (c : CourseDoc) : List (String × JsVal) :=
  [("id", .oid c._id), ("name", .str c.name)]

/-- Handler of `GET /students`. -/
def getStudents (f : Faults) (db : Db) : Outcome :=
  match await f 0 (.ok (Student.findPopulated db)) with
  | .ok students =>
    let formatted := students.map getStudentsFormat
    { response := ⟨200, .array (formatted.map (fun v => serialize v.props))⟩
      db := db, calls := [.studentFind], caught := none }
  | .error msg =>
    { response := ⟨500, errorBody "Failed to fetch students"⟩
      db := db, calls := [.studentFind], caught := some msg }

/-- Handler of `POST /students`. -/
def postStudents (eng : Engine) (f : Faults) (db : Db) (body : Body) : Outcome :=
  let name := body.name
  let email := body.email
  let course_id := body.course_id
  if !name.truthy then
    { response := ⟨400, errorBody "name is required"⟩, db := db, calls := [], caught := none }
  else
    match awaitCreate f 0 (Student.create eng db name email course_id) with
    | .error msg =>
      { response := ⟨500, errorBody "Failed to create student"⟩
        db := db, calls := [.studentCreate name email course_id], caught := some msg }
    | .ok (student, db1) =>
      match await f 1 (.ok (Student.findByIdPopulated db1 student._id)) with
      | .error msg =>
        { response := ⟨500, errorBody "Failed to create student"⟩, db := db1
          calls := [.studentCreate name email course_id, .studentFindById student._id]
          caught := some msg }
      | .ok none =>
        { response := ⟨500, errorBody "Failed to create student"⟩, db := db1
          calls := [.studentCreate name email course_id, .studentFindById student._id]
          caught := some "Cannot read properties of null" }
      | .ok (some populated) =>
        { response := ⟨201, .object (serialize (postStudentsFormat populated).props)⟩
          db := db1
          calls := [.studentCreate name email course_id, .studentFindById student._id]
          caught := none }

/-- Handler of `GET /courses`. -/
def getCourses (f : Faults) (db : Db) : Outcome :=
  match await f 0 (.ok db.courses) with
  | .ok courses =>
    let formatted := courses.map getCoursesFormat
    { response := ⟨200, .array (formatted.map serialize)⟩
      db := db, calls := [.courseFind], caught := none }
  | .error msg =>
    { response := ⟨500, errorBody "Failed to fetch courses"⟩
      db := db, calls := [.courseFind], caught := some msg }

/-- Handler of `POST /courses`. -/
def postCourses (eng : Engine) (f : Faults) (db : Db) (body : Body) : Outcome :=
  let name := body.name
  if !name.truthy then
    { response := ⟨400, errorBody "name is required"⟩, db := db, calls := [], caught := none }
  else
    match awaitCreate f 0 (Course.create eng db name) with
    | .error msg =>
      { response := ⟨500, errorBody "Failed to create course"⟩
        db := db, calls := [.courseCreate name], caught := some msg }
    | .ok (course, db1) =>
      { response := ⟨201, .object (serialize [("id", .oid course._id), ("name", .str course.name)])⟩
        db := db1, calls := [.courseCreate name], caught := none }

/-- Handler of `GET /grades`. -/
def getGrades (f : Faults) (db : Db) : Outcome :=
  match await f 0 (.ok (Grade.findPopulated db)) with
  | .ok grades =>
    let formatted := grades.map getGradesFormat
    { response := ⟨200, .array (formatted.map (fun v => serialize v.props))⟩
      db := db, calls := [.gradeFind], caught := none }
  | .error msg =>
    { response := ⟨500, errorBody "Failed to fetch grades"⟩
      db := db, calls := [.gradeFind], caught := some msg }

/-- Handler of `POST /grades`. -/
def postGrades (eng : Engine) (f : Faults) (db : Db) (body : Body) : Outcome :=
  let student_id := body.student_id
  let course_id := body.course_id
  let score := body.score
  if !student_id.truthy || !course_id.truthy || score.isNullish then
    { response := ⟨400, errorBody "student_id, course_id, and score are required"⟩
      db := db, calls := [], caught := none }
  else
    match awaitCreate f 0 (Grade.create eng db student_id course_id score) with
    | .error msg =>
      { response := ⟨500, errorBody "Failed to create grade"⟩
        db := db, calls := [.gradeCreate student_id course_id score], caught := some msg }
    | .ok (grade, db1) =>
      match await f 1 (.ok (Grade.findByIdPopulated db1 grade._id)) with
      | .error msg =>
        { response := ⟨500, errorBody "Failed to create grade"⟩, db := db1
          calls := [.gradeCreate student_id course_id score, .gradeFindById grade._id]
          caught := some msg }
      | .ok none =>
        { response := ⟨500, errorBody "Failed to create grade"⟩, db := db1
          calls := [.gradeCreate student_id course_id score, .gradeFindById grade._id]
          caught := some "Cannot read properties of null" }
      | .ok (some populated) =>
        { response := ⟨201, .object (serialize (postGradesFormat populated).props)⟩
          db := db1
          calls := [.gradeCreate student_id course_id score, .gradeFindById grade._id]
          caught := none }

/-! ## Sample data -/

/-- The value of a hexadecimal digit. -/
def hexDigit (c : Char) : Option Nat :=
  if c.isDigit then some (c.toNat - 48)
  else if 97 ≤ c.toNat ∧ c.toNat ≤ 102 then some (c.toNat - 87)
  else if 65 ≤ c.toNat ∧ c.toNat ≤ 70 then some (c.toNat - 55)
  else none

/-- Reading of a string of 24 hexadecimal digits as an id. -/
def parseId (s : String) : Option ObjectId :=
  if s.data.length = 24 then
    s.data.foldl (fun acc c =>
      match acc, hexDigit c with
      | some n, some d => some (16 * n + d)
      | _, _ => none) (some 0)
  else none

/-- Reading of a non-empty string of decimal digits as a number. -/
def parseDecimal (s : String) : Option Int :=
  if s.data.all Char.isDigit && !s.data.isEmpty then
    some (Int.ofNat (s.data.foldl (fun n c => 10 * n + (c.toNat - 48)) 0))
  else none

/-- An engine that reads a string of 24 hexadecimal digits as an id and a
decimal string as a number, writes a number or a boolean as a string, and
reads the clock at 1000. -/
def sampleEngine : Engine :=
  { castObjectId := fun v => match v with
      | .str s => parseId s
      | _ => none
    castString := fun v => match v with
      | .num n => some (toString n)
      | .bool b => some (toString b)
      | _ => none
    castNumber := fun v => match v with
      | .str s => parseDecimal s
      | .bool b => some (if b then 1 else 0)
      | _ => none
    now := 1000 }

/-- The schedule under which no store call fails. -/
def noFaults : Faults := fun _ => none

/-- The empty store. -/
def emptyDb : Db := { courses := [], students := [], grades := [] }

/-- A body with no keys. -/
def emptyBody : Body :=
  { name := .undefined, email := .undefined, course_id := .undefined,
    student_id := .undefined, score := .undefined }

/-- A schedule under which the first store call of a request rejects. -/
def failFirst (msg : String) : Faults := fun k => if k = 0 then some msg else none

/-- A student whose `course_id` is 7. -/
def annDoc : StudentDoc :=
  { _id := 1, name := "Ann", email := .undefined, course_id := .id 7, created_at := 5 }

/-- A student with no `course_id`. -/
def bobDoc : StudentDoc :=
  { _id := 2, name := "Bob", email := .str "bob@example.org", course_id := .undefined,
    created_at := 6 }

/-- A grade whose `student_id` is 3 and whose `course_id` is 7. -/
def gradeDoc : GradeDoc :=
  { _id := 1, student_id := .id 3, course_id := .id 7, score := 90, created_at := 8 }

/-- A grade with no `student_id`. -/
def looseGradeDoc : GradeDoc :=
  { _id := 2, student_id := .undefined, course_id := .id 7, score := 55, created_at := 9 }

/-- A store in which neither Course 7 nor Student 3 exists. -/
def danglingDb : Db := { courses := [], students := [annDoc], grades := [gradeDoc] }

/-- A store in which Course 7 has the empty name. -/
def emptyNameDb : Db :=
  { courses := [{ _id := 7, name := "" }], students := [annDoc], grades := [] }

/-- A store holding Course 7 named Algebra and Student 3 named Cy. -/
def algebraDb : Db :=
  { courses := [{ _id := 7, name := "Algebra" }]
    students := [{ _id := 3, name := "Cy", email := .null, course_id := .id 7, created_at := 4 }]
    grades := [] }

/-- The body `{ name: "Ann", course_id: "000000000000000000000007" }`. -/
def annBody : Body :=
  { emptyBody with name := .str "Ann", course_id := .str "000000000000000000000007" }

/-- The body with `student_id` the id 3, `course_id` the id 7 and `score: ""`. -/
def emptyScoreBody : Body :=
  { emptyBody with
    student_id := .str "000000000000000000000003"
    course_id := .str "000000000000000000000007"
    score := .str "" }

/-- The body with `student_id` the id 3, `course_id` the id 7 and `score: 0`. -/
def zeroScoreBody : Body :=
  { emptyBody with
    student_id := .str "000000000000000000000003"
    course_id := .str "000000000000000000000007"
    score := .num 0 }

/-- The grade that `zeroScoreBody` creates in `algebraDb`. -/
def zeroGradeDoc : GradeDoc :=
  { _id := 1, student_id := .id 3, course_id := .id 7, score := 0, created_at := 1000 }

/-- The body `{ name: 5 }`. -/
def numericNameBody : Body := { emptyBody with name := .num 5 }

/-! ## Auxiliary facts about the store -/

theorem le_foldr_max_of_mem {ids : List ObjectId} {x : ObjectId} (h : x ∈ ids) :
    x ≤ ids.foldr max 0 := by
  induction ids with
  | nil => cases h
  | cons a t ih =>
    simp only [List.foldr_cons]
    rcases List.mem_cons.mp h with rfl | h
    · exact le_max_left _ _
    · exact le_trans (ih h) (le_max_right _ _)

theorem lt_newId_of_mem {ids : List ObjectId} {x : ObjectId} (h : x ∈ ids) : x < newId ids :=
  Nat.lt_succ_of_le (le_foldr_max_of_mem h)

theorem find?_append_fresh {α : Type} (key : α → ObjectId) (xs : List α) (d : α)
    (hd : key d = newId (xs.map key)) :
    (xs ++ [d]).find? (fun a => key a == key d) = some d := by
  have hnone : xs.find? (fun a => key a == key d) = none := by
    rw [List.find?_eq_none]
    intro a ha hk
    have h1 : key a < newId (xs.map key) := lt_newId_of_mem (List.mem_map_of_mem key ha)
    have h2 : key a = key d := by simpa using hk
    rw [← hd, ← h2] at h1
    exact Nat.lt_irrefl _ h1
  simp [List.find?_append, hnone]

theorem findCourse_id {db : Db} {v : ObjectId} {c : CourseDoc} (h : findCourse db v = some c) :
    c._id = v := by
  have := List.find?_some h
  simpa using this

theorem findStudent_id {db : Db} {v : ObjectId} {s : StudentDoc}
    (h : findStudent db v = some s) : s._id = v := by
  have := List.find?_some h
  simpa using this

theorem findStudent_created {db : Db} {d : StudentDoc}
    (hd : d._id = newId (db.students.map (fun s => s._id))) :
    findStudent { db with students := db.students ++ [d] } d._id = some d :=
  find?_append_fresh (fun s : StudentDoc => s._id) db.students d hd

theorem findGrade_created {db : Db} {d : GradeDoc}
    (hd : d._id = newId (db.grades.map (fun g => g._id))) :
    findGrade { db with grades := db.grades ++ [d] } d._id = some d :=
  find?_append_fresh (fun g : GradeDoc => g._id) db.grades d hd

theorem populateStudent_created (db : Db) (d s : StudentDoc) :
    populateStudent { db with students := db.students ++ [d] } s = populateStudent db s := rfl

theorem populateGrade_created (db : Db) (d g : GradeDoc) :
    populateGrade { db with grades := db.grades ++ [d] } g = populateGrade db g := rfl

theorem studentCreate_inv {eng : Engine} {db : Db} {n e c : JsVal} {d : StudentDoc} {db1 : Db}
    (h : Student.create eng db n e c = .ok (d, db1)) :
    d._id = newId (db.students.map (fun s => s._id)) ∧
    db1 = { db with students := db.students ++ [d] } ∧
    castRequiredString eng n = some d.name ∧ castStringPath eng e = some d.email ∧
    castRefPath eng c = some d.course_id ∧ d.created_at = eng.now := by
  unfold Student.create at h
  split at h
  · rename_i n1 e1 c1 hn he hc
    simp only [Except.ok.injEq, Prod.mk.injEq] at h
    obtain ⟨rfl, rfl⟩ := h
    simp [hn, he, hc]
  · cases h

theorem gradeCreate_inv {eng : Engine} {db : Db} {s c n : JsVal} {d : GradeDoc} {db1 : Db}
    (h : Grade.create eng db s c n = .ok (d, db1)) :
    d._id = newId (db.grades.map (fun g => g._id)) ∧
    db1 = { db with grades := db.grades ++ [d] } ∧
    castRequiredRef eng s = some d.student_id ∧ castRequiredRef eng c = some d.course_id ∧
    castRequiredNumber eng n = some d.score ∧ d.created_at = eng.now := by
  unfold Grade.create at h
  split at h
  · rename_i s1 c1 n1 hs hc hn
    simp only [Except.ok.injEq, Prod.mk.injEq] at h
    obtain ⟨rfl, rfl⟩ := h
    simp [hs, hc, hn]
  · cases h

/-! ## Auxiliary facts about views and serialization -/

theorem or_null_str (n : String) :
    (JsVal.str n).or .null = if n = "" then JsVal.null else JsVal.str n := by
  by_cases h : n = "" <;> simp [JsVal.or, JsVal.truthy, h]

theorem or_null_ne_undefined (a : JsVal) : ((a.or .null) != JsVal.undefined) = true := by
  cases a <;> simp [JsVal.or, JsVal.truthy] <;> split <;> simp

theorem serialize_postGradesFormat (p : PopulatedGrade) :
    serialize (postGradesFormat p).props = (postGradesFormat p).props := by
  simp [serialize, GradeView.props, postGradesFormat, List.filter_cons, or_null_ne_undefined]

theorem serialize_student_no_email (p : PopulatedStudent) (h : p.email = .undefined) :
    serialize (postStudentsFormat p).props =
      [("id", .oid p._id), ("name", .str p.name),
       ("course_id", (p.course_id.optId).or .null),
       ("course_name", (p.course_id.optName).or .null), ("created_at", .date p.created_at)] := by
  simp [serialize, StudentView.props, postStudentsFormat, List.filter_cons, or_null_ne_undefined, h]

/-! ## Auxiliary facts about the handlers -/

theorem getStudents_noFaults (db : Db) :
    getStudents noFaults db =
      { response := ⟨200, .array (db.students.map
          (fun s => serialize (getStudentsFormat (populateStudent db s)).props))⟩
        db := db, calls := [.studentFind], caught := none } := by
  simp [getStudents, await, noFaults, Student.findPopulated, List.map_map, Function.comp_def]

theorem getGrades_noFaults (db : Db) :
    getGrades noFaults db =
      { response := ⟨200, .array (db.grades.map
          (fun g => serialize (getGradesFormat (populateGrade db g)).props))⟩
        db := db, calls := [.gradeFind], caught := none } := by
  simp [getGrades, await, noFaults, Grade.findPopulated, List.map_map, Function.comp_def]

theorem postStudents_of_create_ok {eng : Engine} {f : Faults} {db : Db} {body : Body}
    {d : StudentDoc} {db1 : Db} (hn : body.name.truthy = true) (h0 : f 0 = none)
    (h1 : f 1 = none)
    (hc : Student.create eng db body.name body.email body.course_id = .ok (d, db1)) :
    postStudents eng f db body =
      { response := ⟨201, .object (serialize (postStudentsFormat (populateStudent db d)).props)⟩
        db := { db with students := db.students ++ [d] }
        calls := [.studentCreate body.name body.email body.course_id, .studentFindById d._id]
        caught := none } := by
  obtain ⟨hid, rfl, -⟩ := studentCreate_inv hc
  simp [postStudents, hn, awaitCreate, await, h0, h1, hc, Student.findByIdPopulated,
    findStudent_created hid, populateStudent_created]

theorem postStudents_created {eng : Engine} {f : Faults} {db : Db} {body : Body}
    (h : (postStudents eng f db body).response.status = 201) :
    ∃ d db1, body.name.truthy = true ∧ f 0 = none ∧ f 1 = none ∧
      Student.create eng db body.name body.email body.course_id = .ok (d, db1) := by
  unfold postStudents at h
  by_cases hn : body.name.truthy = true
  · cases hc : Student.create eng db body.name body.email body.course_id with
    | error m => simp [hn, awaitCreate, hc] at h
    | ok p =>
      obtain ⟨d, db1⟩ := p
      cases h0 : f 0 with
      | some m => simp [hn, awaitCreate, await, h0, hc] at h
      | none =>
        cases h1 : f 1 with
        | some m => simp [hn, awaitCreate, await, h0, hc, h1] at h
        | none => exact ⟨d, db1, hn, rfl, rfl, rfl⟩
  · simp [hn] at h

theorem postGrades_of_create_ok {eng : Engine} {f : Faults} {db : Db} {body : Body}
    {d : GradeDoc} {db1 : Db} (hs : body.student_id.truthy = true)
    (hc : body.course_id.truthy = true) (hn : body.score.isNullish = false)
    (h0 : f 0 = none) (h1 : f 1 = none)
    (hcr : Grade.create eng db body.student_id body.course_id body.score = .ok (d, db1)) :
    postGrades eng f db body =
      { response := ⟨201, .object (serialize (postGradesFormat (populateGrade db d)).props)⟩
        db := { db with grades := db.grades ++ [d] }
        calls := [.gradeCreate body.student_id body.course_id body.score, .gradeFindById d._id]
        caught := none } := by
  obtain ⟨hid, rfl, -⟩ := gradeCreate_inv hcr
  simp [postGrades, hs, hc, hn, awaitCreate, await, h0, h1, hcr, Grade.findByIdPopulated,
    findGrade_created hid, populateGrade_created]

theorem postGrades_created {eng : Engine} {f : Faults} {db : Db} {body : Body}
    (h : (postGrades eng f db body).response.status = 201) :
    ∃ d db1, body.student_id.truthy = true ∧ body.course_id.truthy = true ∧
      body.score.isNullish = false ∧ f 0 = none ∧ f 1 = none ∧
      Grade.create eng db body.student_id body.course_id body.score = .ok (d, db1) := by
  unfold postGrades at h
  by_cases hg : (!body.student_id.truthy || !body.course_id.truthy || body.score.isNullish) = true
  · simp [hg] at h
  · have hg2 : body.student_id.truthy = true ∧ body.course_id.truthy = true ∧
        body.score.isNullish = false := by
      revert hg
      cases body.student_id.truthy <;> cases body.course_id.truthy <;>
        cases body.score.isNullish <;> simp
    cases hc : Grade.create eng db body.student_id body.course_id body.score with
    | error m => simp [hg, awaitCreate, hc] at h
    | ok p =>
      obtain ⟨d, db1⟩ := p
      cases h0 : f 0 with
      | some m => simp [hg, awaitCreate, await, h0, hc] at h
      | none =>
        cases h1 : f 1 with
        | some m => simp [hg, awaitCreate, await, h0, hc, h1] at h
        | none => exact ⟨d, db1, hg2.1, hg2.2.1, hg2.2.2, rfl, rfl, rfl⟩

theorem postGrades_guard_reject {eng : Engine} {f : Faults} {db : Db} {body : Body}
    (h : body.student_id.truthy = false ∨ body.course_id.truthy = false ∨
      body.score.isNullish = true) :
    (postGrades eng f db body).response =
        ⟨400, errorBody "student_id, course_id, and score are required"⟩ ∧
    (postGrades eng f db body).calls = [] ∧ (postGrades eng f db body).db = db := by
  have hg : (!body.student_id.truthy || !body.course_id.truthy || body.score.isNullish) = true := by
    rcases h with h | h | h <;> simp [h]
  simp [postGrades, hg]

theorem postGrades_guard_pass {eng : Engine} {f : Faults} {db : Db} {body : Body}
    (hs : body.student_id.truthy = true) (hc : body.course_id.truthy = true)
    (hnn : body.score.isNullish = false) :
    (postGrades eng f db body).response.status ≠ 400 ∧
    (postGrades eng f db body).calls.head? =
      some (.gradeCreate body.student_id body.course_id body.score) := by
  unfold postGrades
  simp only [hs, hc, hnn]
  cases hcr : Grade.create eng db body.student_id body.course_id body.score with
  | error m => simp [awaitCreate, hcr]
  | ok p =>
    obtain ⟨d, db1⟩ := p
    cases h0 : f 0 with
    | some m => simp [awaitCreate, await, h0, hcr]
    | none =>
      cases h1 : f 1 with
      | some m => simp [awaitCreate, await, h0, hcr, h1]
      | none =>
        cases hfind : Grade.findByIdPopulated db1 d._id <;>
          simp [awaitCreate, await, h0, hcr, h1, hfind]

theorem postCourses_guard_pass {eng : Engine} {f : Faults} {db : Db} {body : Body}
    (hn : body.name.truthy = true) :
    (postCourses eng f db body).response.status ≠ 400 ∧
    (postCourses eng f db body).calls = [.courseCreate body.name] := by
  unfold postCourses
  simp only [hn]
  cases hcr : Course.create eng db body.name with
  | error m => simp [awaitCreate, hcr]
  | ok p =>
    cases h0 : f 0 with
    | some m => simp [awaitCreate, await, h0, hcr]
    | none => simp [awaitCreate, await, h0, hcr]

/-! ## The claims -/

/-- C1, counterexample.  Student 1 stores `course_id` 7 and no Course has
id 7; `GET /students` emits `course_id: null` for it, not the stored 7. -/
theorem dangling_reference_keeps_id_counterexample :
    annDoc.course_id = .id 7 ∧ findCourse danglingDb 7 = none ∧
    (getStudents noFaults danglingDb).response =
      ⟨200, .array [[("id", .oid 1), ("name", .str "Ann"), ("course_id", .null),
        ("course_name", .null), ("created_at", .date 5)]]⟩ ∧
    (getStudentsFormat (populateStudent danglingDb annDoc)).course_id ≠ .oid 7 := by
  decide

/-- C1, amended.  When the stored reference `v` of a Student or Grade record
does not resolve at read time, the view built by the `GET` and by the `POST`
handler has both `X_id = null` and `X_name = null`. -/
theorem dangling_reference_emits_null (db : Db) (v : ObjectId) :
    (∀ s : StudentDoc, s.course_id = .id v → findCourse db v = none →
      (getStudentsFormat (populateStudent db s)).course_id = .null ∧
      (getStudentsFormat (populateStudent db s)).course_name = .null ∧
      (postStudentsFormat (populateStudent db s)).course_id = .null ∧
      (postStudentsFormat (populateStudent db s)).course_name = .null) ∧
    (∀ g : GradeDoc, g.student_id = .id v → findStudent db v = none →
      (getGradesFormat (populateGrade db g)).student_id = .null ∧
      (getGradesFormat (populateGrade db g)).student_name = .null ∧
      (postGradesFormat (populateGrade db g)).student_id = .null ∧
      (postGradesFormat (populateGrade db g)).student_name = .null) ∧
    (∀ g : GradeDoc, g.course_id = .id v → findCourse db v = none →
      (getGradesFormat (populateGrade db g)).course_id = .null ∧
      (getGradesFormat (populateGrade db g)).course_name = .null ∧
      (postGradesFormat (populateGrade db g)).course_id = .null ∧
      (postGradesFormat (populateGrade db g)).course_name = .null) := by
  refine ⟨?_, ?_, ?_⟩
  · intro s hs hv
    simp [getStudentsFormat, postStudentsFormat, populateStudent, populateCourse, hs, hv,
      Populated.optId, Populated.optName, JsVal.or, JsVal.truthy]
  · intro g hg hv
    simp [getGradesFormat, postGradesFormat, populateGrade, populateStudentRef, hg, hv,
      Populated.optId, Populated.optName, JsVal.or, JsVal.truthy]
  · intro g hg hv
    simp [getGradesFormat, postGradesFormat, populateGrade, populateCourse, hg, hv,
      Populated.optId, Populated.optName, JsVal.or, JsVal.truthy]

/-- C1, amended, at Student 1 of `danglingDb`, whose Course 7 is missing. -/
theorem dangling_reference_emits_null_witness :
    (getStudentsFormat (populateStudent danglingDb annDoc)).course_id = .null ∧
    (getStudentsFormat (populateStudent danglingDb annDoc)).course_name = .null ∧
    (postStudentsFormat (populateStudent danglingDb annDoc)).course_id = .null ∧
    (postStudentsFormat (populateStudent danglingDb annDoc)).course_name = .null :=
  (dangling_reference_emits_null danglingDb 7).1 annDoc rfl (by decide)

/-- C2, counterexample.  Student 1 stores `course_id` 7, which resolves to a
Course whose name is the empty string; `GET /students` emits
`course_name: null` for it, not the empty name. -/
theorem resolved_empty_name_counterexample :
    annDoc.course_id = .id 7 ∧ findCourse emptyNameDb 7 = some { _id := 7, name := "" } ∧
    (getStudents noFaults emptyNameDb).response =
      ⟨200, .array [[("id", .oid 1), ("name", .str "Ann"), ("course_id", .oid 7),
        ("course_name", .null), ("created_at", .date 5)]]⟩ ∧
    (getStudentsFormat (populateStudent emptyNameDb annDoc)).course_name ≠ .str "" := by
  decide

/-- C2, amended.  When the stored reference `v` of a Student or Grade record
resolves to a record with name `n`, the view built by the `GET` and by the
`POST` handler has `X_id = v`, and `X_name = n` when `n` is not empty; an
empty name is emitted as `null`. -/
theorem resolved_reference_joined (db : Db) (v : ObjectId) :
    (∀ (s : StudentDoc) (c : CourseDoc), s.course_id = .id v → findCourse db v = some c →
      (getStudentsFormat (populateStudent db s)).course_id = .oid v ∧
      (getStudentsFormat (populateStudent db s)).course_name =
        (if c.name = "" then .null else .str c.name) ∧
      (postStudentsFormat (populateStudent db s)).course_id = .oid v ∧
      (postStudentsFormat (populateStudent db s)).course_name =
        (if c.name = "" then .null else .str c.name)) ∧
    (∀ (g : GradeDoc) (s : StudentDoc), g.student_id = .id v → findStudent db v = some s →
      (getGradesFormat (populateGrade db g)).student_id = .oid v ∧
      (getGradesFormat (populateGrade db g)).student_name =
        (if s.name = "" then .null else .str s.name) ∧
      (postGradesFormat (populateGrade db g)).student_id = .oid v ∧
      (postGradesFormat (populateGrade db g)).student_name =
        (if s.name = "" then .null else .str s.name)) ∧
    (∀ (g : GradeDoc) (c : CourseDoc), g.course_id = .id v → findCourse db v = some c →
      (getGradesFormat (populateGrade db g)).course_id = .oid v ∧
      (getGradesFormat (populateGrade db g)).course_name =
        (if c.name = "" then .null else .str c.name) ∧
      (postGradesFormat (populateGrade db g)).course_id = .oid v ∧
      (postGradesFormat (populateGrade db g)).course_name =
        (if c.name = "" then .null else .str c.name)) := by
  refine ⟨?_, ?_, ?_⟩
  · intro s c hs hv
    have hid := findCourse_id hv
    simp [getStudentsFormat, postStudentsFormat, populateStudent, populateCourse, hs, hv,
      Populated.optId, Populated.optName, or_null_str, hid, JsVal.or, JsVal.truthy]
  · intro g s hg hv
    have hid := findStudent_id hv
    simp [getGradesFormat, postGradesFormat, populateGrade, populateStudentRef, hg, hv,
      Populated.optId, Populated.optName, or_null_str, hid, JsVal.or, JsVal.truthy]
  · intro g c hg hv
    have hid := findCourse_id hv
    simp [getGradesFormat, postGradesFormat, populateGrade, populateCourse, hg, hv,
      Populated.optId, Populated.optName, or_null_str, hid, JsVal.or, JsVal.truthy]

/-- C2, amended, at a grade of `algebraDb` whose Course 7 is named Algebra. -/
theorem resolved_reference_joined_witness :
    (getGradesFormat (populateGrade algebraDb gradeDoc)).course_id = .oid 7 ∧
    (getGradesFormat (populateGrade algebraDb gradeDoc)).course_name = .str "Algebra" ∧
    (postGradesFormat (populateGrade algebraDb gradeDoc)).course_id = .oid 7 ∧
    (postGradesFormat (populateGrade algebraDb gradeDoc)).course_name = .str "Algebra" :=
  (resolved_reference_joined algebraDb 7).2.2 gradeDoc { _id := 7, name := "Algebra" } rfl rfl

/-- C3, counterexample.  With `student_id` and `course_id` given and
`score` the empty string, `POST /grades` does not answer 400: it calls the
store create and answers 500. -/
theorem postGrades_empty_score_counterexample :
    emptyScoreBody.score = .str "" ∧
    (postGrades sampleEngine noFaults algebraDb emptyScoreBody).response =
      ⟨500, errorBody "Failed to create grade"⟩ ∧
    (postGrades sampleEngine noFaults algebraDb emptyScoreBody).calls =
      [.gradeCreate (.str "000000000000000000000003") (.str "000000000000000000000007")
        (.str "")] := by
  decide

/-- C3, amended.  `POST /grades` answers 400 with the error
`student_id, course_id, and score are required`, without any store call,
exactly when `student_id` or `course_id` is falsy or `score` is absent or
`null`; for every other body, an empty-string `score` included, it does not
answer 400 and its first store call is the create with the three values. -/
theorem postGrades_guard (eng : Engine) (f : Faults) (db : Db) (body : Body) :
    ((body.student_id.truthy = false ∨ body.course_id.truthy = false ∨
        body.score = .undefined ∨ body.score = .null) →
      (postGrades eng f db body).response =
          ⟨400, errorBody "student_id, course_id, and score are required"⟩ ∧
        (postGrades eng f db body).calls = [] ∧ (postGrades eng f db body).db = db) ∧
    (body.student_id.truthy = true → body.course_id.truthy = true →
        body.score ≠ .undefined → body.score ≠ .null →
      (postGrades eng f db body).response.status ≠ 400 ∧
        (postGrades eng f db body).calls.head? =
          some (.gradeCreate body.student_id body.course_id body.score)) := by
  constructor
  · intro h
    apply postGrades_guard_reject
    rcases h with h | h | h | h
    · exact Or.inl h
    · exact Or.inr (Or.inl h)
    · exact Or.inr (Or.inr (by rw [h]; rfl))
    · exact Or.inr (Or.inr (by rw [h]; rfl))
  · intro hs hc hu hn
    have hnn : body.score.isNullish = false := by
      cases hsc : body.score <;> simp_all [JsVal.isNullish]
    exact postGrades_guard_pass hs hc hnn

/-- C3, amended, at the body with no keys. -/
theorem postGrades_guard_witness :
    (postGrades sampleEngine noFaults algebraDb emptyBody).response =
        ⟨400, errorBody "student_id, course_id, and score are required"⟩ ∧
      (postGrades sampleEngine noFaults algebraDb emptyBody).calls = [] ∧
      (postGrades sampleEngine noFaults algebraDb emptyBody).db = algebraDb :=
  (postGrades_guard sampleEngine noFaults algebraDb emptyBody).1 (Or.inl rfl)

/-- C4.  For a `POST /grades` body with truthy `student_id` and `course_id`
and `score = 0`, the guard does not answer 400, the first store call is the
create with score 0, and whenever the store calls succeed the answer is 201
with a `score` field equal to 0. -/
theorem postGrades_zero_score (eng : Engine) (f : Faults) (db : Db) (body : Body)
    (hs : body.student_id.truthy = true) (hc : body.course_id.truthy = true)
    (h0 : body.score = .num 0) :
    (postGrades eng f db body).response.status ≠ 400 ∧
    (postGrades eng f db body).calls.head? =
      some (.gradeCreate body.student_id body.course_id (.num 0)) ∧
    (∀ (d : GradeDoc) (db1 : Db), f 0 = none → f 1 = none →
      Grade.create eng db body.student_id body.course_id (.num 0) = .ok (d, db1) →
      (postGrades eng f db body).response.status = 201 ∧
      ∃ fields, (postGrades eng f db body).response.body = .object fields ∧
        fields.lookup "score" = some (.num 0)) := by
  have hn : body.score.isNullish = false := by rw [h0]; rfl
  have hg : (postGrades eng f db body).response.status ≠ 400 ∧
      (postGrades eng f db body).calls.head? =
        some (.gradeCreate body.student_id body.course_id body.score) :=
    postGrades_guard_pass hs hc hn
  refine ⟨hg.1, ?_, ?_⟩
  · rw [hg.2, h0]
  · intro d db1 hf0 hf1 hcr
    rw [← h0] at hcr
    obtain ⟨-, -, -, -, hnum, -⟩ := gradeCreate_inv hcr
    have hscore : d.score = 0 := by
      rw [h0] at hnum
      simpa [castRequiredNumber] using hnum.symm
    rw [postGrades_of_create_ok hs hc hn hf0 hf1 hcr]
    refine ⟨rfl, _, rfl, ?_⟩
    rw [serialize_postGradesFormat]
    simp [GradeView.props, postGradesFormat, populateGrade, hscore, List.lookup]

/-- C4 at the body with the ids 3 and 7 and score 0, posted to `algebraDb`. -/
theorem postGrades_zero_score_witness :
    (postGrades sampleEngine noFaults algebraDb zeroScoreBody).response.status = 201 ∧
    ∃ fields, (postGrades sampleEngine noFaults algebraDb zeroScoreBody).response.body =
        .object fields ∧ fields.lookup "score" = some (.num 0) :=
  (postGrades_zero_score sampleEngine noFaults algebraDb zeroScoreBody rfl rfl rfl).2.2
    zeroGradeDoc { algebraDb with grades := [zeroGradeDoc] } rfl rfl rfl

/-- C5.  For every store and every body whose `name` is absent, `null` or
the empty string, `POST /students` answers 400 `name is required`, issues no
store call and leaves the store, hence the student listing, unchanged. -/
theorem postStudents_missing_name_atomic (eng : Engine) (f : Faults) (db : Db) (body : Body)
    (h : body.name = .undefined ∨ body.name = .null ∨ body.name = .str "") :
    (postStudents eng f db body).response = ⟨400, errorBody "name is required"⟩ ∧
    (postStudents eng f db body).calls = [] ∧
    (postStudents eng f db body).db = db ∧
    ∀ g : Faults, getStudents g (postStudents eng f db body).db = getStudents g db := by
  have hn : body.name.truthy = false := by
    rcases h with h | h | h <;> rw [h] <;> rfl
  simp [postStudents, hn]

/-- C5 at the body with no keys. -/
theorem postStudents_missing_name_atomic_witness :
    (postStudents sampleEngine noFaults algebraDb emptyBody).response =
        ⟨400, errorBody "name is required"⟩ ∧
    (postStudents sampleEngine noFaults algebraDb emptyBody).calls = [] ∧
    (postStudents sampleEngine noFaults algebraDb emptyBody).db = algebraDb ∧
    ∀ g : Faults, getStudents g (postStudents sampleEngine noFaults algebraDb emptyBody).db =
      getStudents g algebraDb :=
  postStudents_missing_name_atomic sampleEngine noFaults algebraDb emptyBody (Or.inl rfl)

/-- C6, counterexample.  With `name` the number 5, which is not a string,
`POST /courses` does not answer 400 and reaches the store create. -/
theorem postCourses_numeric_name_counterexample :
    numericNameBody.name = .num 5 ∧
    (postCourses sampleEngine noFaults emptyDb numericNameBody).response.status ≠ 400 ∧
    (postCourses sampleEngine noFaults emptyDb numericNameBody).calls =
      [.courseCreate (.num 5)] := by
  decide

/-- C6, amended.  `POST /courses` answers 400 `name is required`, without
any store call, exactly when `name` is falsy; for every truthy `name`, every
non-empty string among them, it does not answer 400 and calls the store
create with that name. -/
theorem postCourses_guard (eng : Engine) (f : Faults) (db : Db) (body : Body) :
    (body.name.truthy = false →
      (postCourses eng f db body).response = ⟨400, errorBody "name is required"⟩ ∧
        (postCourses eng f db body).calls = [] ∧ (postCourses eng f db body).db = db) ∧
    (body.name.truthy = true →
      (postCourses eng f db body).response.status ≠ 400 ∧
        (postCourses eng f db body).calls = [.courseCreate body.name]) ∧
    (∀ s : String, s ≠ "" → (JsVal.str s).truthy = true) := by
  refine ⟨?_, fun hn => postCourses_guard_pass hn, ?_⟩
  · intro hn
    simp [postCourses, hn]
  · intro s hs
    simp [JsVal.truthy, hs]

/-- C6, amended, at the body with no keys. -/
theorem postCourses_guard_witness :
    (postCourses sampleEngine noFaults emptyDb emptyBody).response =
        ⟨400, errorBody "name is required"⟩ ∧
      (postCourses sampleEngine noFaults emptyDb emptyBody).calls = [] ∧
      (postCourses sampleEngine noFaults emptyDb emptyBody).db = emptyDb :=
  (postCourses_guard sampleEngine noFaults emptyDb emptyBody).1 rfl

/-- C7.  The object literal of `POST /students` (resp. `POST /grades`) is
the same function of the populated record as the mapping function of
`GET /students` (resp. `GET /grades`), and whenever the `POST` answers 201
the listing read right afterwards is the listing before followed by exactly
the body that the `POST` returned. -/
theorem created_view_equals_listed_view (eng : Engine) (f : Faults) (db : Db) (body : Body) :
    (∀ p : PopulatedStudent, postStudentsFormat p = getStudentsFormat p) ∧
    (∀ p : PopulatedGrade, postGradesFormat p = getGradesFormat p) ∧
    ((postStudents eng f db body).response.status = 201 →
      ∃ fields old, (postStudents eng f db body).response.body = .object fields ∧
        (getStudents noFaults db).response.body = .array old ∧
        (getStudents noFaults (postStudents eng f db body).db).response =
          ⟨200, .array (old ++ [fields])⟩) ∧
    ((postGrades eng f db body).response.status = 201 →
      ∃ fields old, (postGrades eng f db body).response.body = .object fields ∧
        (getGrades noFaults db).response.body = .array old ∧
        (getGrades noFaults (postGrades eng f db body).db).response =
          ⟨200, .array (old ++ [fields])⟩) := by
  refine ⟨fun _ => rfl, fun _ => rfl, ?_, ?_⟩
  · intro h
    obtain ⟨d, db1, hn, h0, h1, hc⟩ := postStudents_created h
    rw [postStudents_of_create_ok hn h0 h1 hc]
    refine ⟨_, _, rfl, by rw [getStudents_noFaults], ?_⟩
    rw [getStudents_noFaults]
    simp only [List.map_append, List.map_cons, List.map_nil]
    rfl
  · intro h
    obtain ⟨d, db1, hs, hc, hn, h0, h1, hcr⟩ := postGrades_created h
    rw [postGrades_of_create_ok hs hc hn h0 h1 hcr]
    refine ⟨_, _, rfl, by rw [getGrades_noFaults], ?_⟩
    rw [getGrades_noFaults]
    simp only [List.map_append, List.map_cons, List.map_nil]
    rfl

/-- C7 at the student that `annBody` creates in `algebraDb`. -/
theorem created_view_equals_listed_view_witness :
    ∃ fields old, (postStudents sampleEngine noFaults algebraDb annBody).response.body =
        .object fields ∧
      (getStudents noFaults algebraDb).response.body = .array old ∧
      (getStudents noFaults (postStudents sampleEngine noFaults algebraDb annBody).db).response =
        ⟨200, .array (old ++ [fields])⟩ :=
  (created_view_equals_listed_view sampleEngine noFaults algebraDb annBody).2.2.1 (by decide)

/-- C8.  In each of the six collection handlers, every store failure sends
one and the same response, status 500 with the fixed error body of that
handler, whatever the failure is: a rejected read (`GET`), a document the
create rejects in validation, a rejected write, or a rejected re-read
(`POST`), with whatever message `msg`, engine, store and body.  The message
reaches `console.error` only. -/
theorem store_failure_response_uniform (eng : Engine) (f : Faults) (db : Db) (body : Body)
    (msg : String) :
    (f 0 = some msg →
      (getStudents f db).response = ⟨500, errorBody "Failed to fetch students"⟩ ∧
      (getStudents f db).caught = some msg) ∧
    (f 0 = some msg →
      (getCourses f db).response = ⟨500, errorBody "Failed to fetch courses"⟩ ∧
      (getCourses f db).caught = some msg) ∧
    (f 0 = some msg →
      (getGrades f db).response = ⟨500, errorBody "Failed to fetch grades"⟩ ∧
      (getGrades f db).caught = some msg) ∧
    (body.name.truthy = true →
      (Student.create eng db body.name body.email body.course_id = .error msg ∨
        ((∃ r, Student.create eng db body.name body.email body.course_id = .ok r) ∧
          (f 0 = some msg ∨ (f 0 = none ∧ f 1 = some msg)))) →
      (postStudents eng f db body).response = ⟨500, errorBody "Failed to create student"⟩ ∧
      (postStudents eng f db body).caught = some msg) ∧
    (body.name.truthy = true →
      (Course.create eng db body.name = .error msg ∨
        ((∃ r, Course.create eng db body.name = .ok r) ∧ f 0 = some msg)) →
      (postCourses eng f db body).response = ⟨500, errorBody "Failed to create course"⟩ ∧
      (postCourses eng f db body).caught = some msg) ∧
    (body.student_id.truthy = true → body.course_id.truthy = true →
      body.score.isNullish = false →
      (Grade.create eng db body.student_id body.course_id body.score = .error msg ∨
        ((∃ r, Grade.create eng db body.student_id body.course_id body.score = .ok r) ∧
          (f 0 = some msg ∨ (f 0 = none ∧ f 1 = some msg)))) →
      (postGrades eng f db body).response = ⟨500, errorBody "Failed to create grade"⟩ ∧
      (postGrades eng f db body).caught = some msg) := by
  refine ⟨?_, ?_, ?_, ?_, ?_, ?_⟩
  · intro h0
    simp [getStudents, await, h0]
  · intro h0
    simp [getCourses, await, h0]
  · intro h0
    simp [getGrades, await, h0]
  · intro hn h
    rcases h with hc | ⟨⟨r, hc⟩, h0 | ⟨h0, h1⟩⟩
    · simp [postStudents, hn, awaitCreate, hc]
    · simp [postStudents, hn, awaitCreate, await, hc, h0]
    · simp [postStudents, hn, awaitCreate, await, hc, h0, h1]
  · intro hn h
    rcases h with hc | ⟨⟨r, hc⟩, h0⟩
    · simp [postCourses, hn, awaitCreate, hc]
    · simp [postCourses, hn, awaitCreate, await, hc, h0]
  · intro hs hc hnn h
    rcases h with hcr | ⟨⟨r, hcr⟩, h0 | ⟨h0, h1⟩⟩
    · simp [postGrades, hs, hc, hnn, awaitCreate, hcr]
    · simp [postGrades, hs, hc, hnn, awaitCreate, await, hcr, h0]
    · simp [postGrades, hs, hc, hnn, awaitCreate, await, hcr, h0, h1]

/-- C8 at `POST /grades`: a write that a connection reset rejects, and a
document with an empty score that validation rejects while the schedule
holds a timeout, are answered with the same response. -/
theorem store_failure_response_uniform_witness :
    ((postGrades sampleEngine (failFirst "ECONNRESET") algebraDb zeroScoreBody).response =
        ⟨500, errorBody "Failed to create grade"⟩ ∧
      (postGrades sampleEngine (failFirst "ECONNRESET") algebraDb zeroScoreBody).caught =
        some "ECONNRESET") ∧
    ((postGrades sampleEngine (failFirst "timeout") emptyDb emptyScoreBody).response =
        ⟨500, errorBody "Failed to create grade"⟩ ∧
      (postGrades sampleEngine (failFirst "timeout") emptyDb emptyScoreBody).caught =
        some "Grade validation failed") :=
  ⟨(store_failure_response_uniform sampleEngine (failFirst "ECONNRESET") algebraDb zeroScoreBody
      "ECONNRESET").2.2.2.2.2 rfl rfl rfl (Or.inr ⟨⟨_, rfl⟩, Or.inl rfl⟩),
    (store_failure_response_uniform sampleEngine (failFirst "timeout") emptyDb emptyScoreBody
      "Grade validation failed").2.2.2.2.2 rfl rfl rfl (Or.inl rfl)⟩

/-- C9.  For every Student record with no stored `course_id`, and every
Grade record with no stored `student_id` or `course_id`, the view has
`X_id = null` and `X_name = null` for that reference, while every other
field of the view is what it is for the record otherwise. -/
theorem unset_reference_two_nulls (db : Db) :
    (∀ s : StudentDoc, s.course_id = .undefined ∨ s.course_id = .null →
      getStudentsFormat (populateStudent db s) =
        { id := .oid s._id, name := .str s.name, email := s.email, course_id := .null,
          course_name := .null, created_at := .date s.created_at } ∧
      postStudentsFormat (populateStudent db s) =
        { id := .oid s._id, name := .str s.name, email := s.email, course_id := .null,
          course_name := .null, created_at := .date s.created_at }) ∧
    (∀ g : GradeDoc, g.student_id = .undefined ∨ g.student_id = .null →
      getGradesFormat (populateGrade db g) =
        { id := .oid g._id, student_id := .null, student_name := .null,
          course_id := ((populateCourse db g.course_id).optId).or .null,
          course_name := ((populateCourse db g.course_id).optName).or .null,
          score := .num g.score, created_at := .date g.created_at } ∧
      postGradesFormat (populateGrade db g) = getGradesFormat (populateGrade db g)) ∧
    (∀ g : GradeDoc, g.course_id = .undefined ∨ g.course_id = .null →
      getGradesFormat (populateGrade db g) =
        { id := .oid g._id
          student_id := ((populateStudentRef db g.student_id).optId).or .null
          student_name := ((populateStudentRef db g.student_id).optName).or .null
          course_id := .null, course_name := .null,
          score := .num g.score, created_at := .date g.created_at } ∧
      postGradesFormat (populateGrade db g) = getGradesFormat (populateGrade db g)) := by
  refine ⟨?_, ?_, ?_⟩
  · intro s hs
    rcases hs with hs | hs <;>
      simp [getStudentsFormat, postStudentsFormat, populateStudent, populateCourse, hs,
        Populated.optId, Populated.optName, JsVal.or, JsVal.truthy]
  · intro g hg
    rcases hg with hg | hg <;>
      simp [getGradesFormat, postGradesFormat, populateGrade, populateStudentRef, hg,
        Populated.optId, Populated.optName, JsVal.or, JsVal.truthy]
  · intro g hg
    rcases hg with hg | hg <;>
      simp [getGradesFormat, postGradesFormat, populateGrade, populateCourse, hg,
        Populated.optId, Populated.optName, JsVal.or, JsVal.truthy]

/-- C9 at a student of `algebraDb` that has no `course_id`. -/
theorem unset_reference_two_nulls_witness :
    getStudentsFormat (populateStudent algebraDb bobDoc) =
        { id := .oid 2, name := .str "Bob", email := .str "bob@example.org", course_id := .null,
          course_name := .null, created_at := .date 6 } ∧
      postStudentsFormat (populateStudent algebraDb bobDoc) =
        { id := .oid 2, name := .str "Bob", email := .str "bob@example.org", course_id := .null,
          course_name := .null, created_at := .date 6 } :=
  (unset_reference_two_nulls algebraDb).1 bobDoc (Or.inl rfl)

/-- C10, counterexample.  `POST /students` with a name, a `course_id` and
no email answers 201 with a body that has no `email` field at all, and the
listing afterwards emits the same element; the field is absent, not `null`. -/
theorem omitted_email_counterexample :
    annBody.email = .undefined ∧
    (postStudents sampleEngine noFaults algebraDb annBody).response =
      ⟨201, .object [("id", .oid 4), ("name", .str "Ann"), ("course_id", .oid 7),
        ("course_name", .str "Algebra"), ("created_at", .date 1000)]⟩ ∧
    (getStudents noFaults (postStudents sampleEngine noFaults algebraDb annBody).db).response =
      ⟨200, .array [[("id", .oid 3), ("name", .str "Cy"), ("email", .null), ("course_id", .oid 7),
          ("course_name", .str "Algebra"), ("created_at", .date 4)],
        [("id", .oid 4), ("name", .str "Ann"), ("course_id", .oid 7),
          ("course_name", .str "Algebra"), ("created_at", .date 1000)]]⟩ := by
  decide

/-- C10, amended.  For every Student created by `POST /students` from a
body without `email`, the returned view has no `email` field (its value is
`undefined`, which serialization leaves out), and `GET /students` emits that
same element for it. -/
theorem omitted_email_is_absent (eng : Engine) (f : Faults) (db : Db) (body : Body)
    (he : body.email = .undefined)
    (h : (postStudents eng f db body).response.status = 201) :
    ∃ fields old, (postStudents eng f db body).response.body = .object fields ∧
      fields.lookup "email" = none ∧
      (getStudents noFaults db).response.body = .array old ∧
      (getStudents noFaults (postStudents eng f db body).db).response.body =
        .array (old ++ [fields]) := by
  obtain ⟨d, db1, hn, h0, h1, hc⟩ := postStudents_created h
  obtain ⟨-, -, -, hemail, -⟩ := studentCreate_inv hc
  have hde : d.email = .undefined := by
    rw [he] at hemail
    simpa [castStringPath] using hemail.symm
  rw [postStudents_of_create_ok hn h0 h1 hc]
  refine ⟨_, _, rfl, ?_, by rw [getStudents_noFaults], ?_⟩
  · rw [serialize_student_no_email _ (by simpa [populateStudent] using hde)]
    simp [List.lookup]
  · rw [getStudents_noFaults]
    simp only [List.map_append, List.map_cons, List.map_nil]
    rfl

/-- C10, amended, at the student that `annBody` creates in `algebraDb`. -/
theorem omitted_email_is_absent_witness :
    ∃ fields old, (postStudents sampleEngine noFaults algebraDb annBody).response.body =
        .object fields ∧
      fields.lookup "email" = none ∧
      (getStudents noFaults algebraDb).response.body = .array old ∧
      (getStudents noFaults (postStudents sampleEngine noFaults algebraDb annBody).db).response.body
        = .array (old ++ [fields]) :=
  omitted_email_is_absent sampleEngine noFaults algebraDb annBody rfl (by decide)


end StudentBackend
